import Mathlib

/-!
# Booking-and-payments backend: shallow embedding and verification

A shallow embedding of the booking lifecycle and payment-settlement state
machine of a photography-studio backend (Express + Sequelize), together with
proofs and refutations of the specification's claims about it.

Embedding conventions:
* JavaScript numbers holding money values are modelled as exact rationals
  (`ℚ`); the DB stores `DECIMAL(10,2)` and the controllers do plain
  arithmetic on it.
* `new Date()` is modelled by passing an explicit abstract clock value
  `now : ℕ`; `bookingDate` and the stored timestamps live on the same clock.
* Sequelize rows become Lean structures; `findOne` becomes `List.find?`;
  `row.save()` becomes a keyed functional update of the list.
* The HTTP layer is modelled as `Except Err` results: an `Err` response
  leaves every row unchanged, mirroring the controllers, which return via
  `next(new AppError(...))` before any mutation on the error paths that the
  claims are about.
* External collaborators (Stripe intent creation, signature verification,
  Cloudinary upload, e-mail) are treated as opaque inputs: webhook handlers
  receive already-verified events, delivery creation receives the uploaded
  photo list.
-/

/-- `bookingStatus` enum of the `Booking` model (models/Booking.js). -/
inductive BookingStatus
  | Pending
  | Confirmed
  | InProgress
  | Completed
  | Cancelled
  deriving DecidableEq, Repr

/-- `paymentStatus` enum of the `Booking` model (models/Booking.js). -/
inductive BookingPaymentStatus
  | Pending
  | DepositPaid
  | FullyPaid
  | Refunded
  deriving DecidableEq, Repr

/-- `paymentType` of a `Payment` row. -/
inductive PaymentType
  | Deposit
  | Remaining
  | Full
  | Refund
  deriving DecidableEq, Repr

/-- `status` of a `Payment` row. -/
inductive PaymentRowStatus
  | Pending
  | Processing
  | Succeeded
  | Failed
  | Cancelled
  | Refunded
  deriving DecidableEq, Repr

/-- The `pricing` JSON snapshot frozen into a Booking at creation. -/
structure Pricing where
  packagePrice : ℚ
  depositAmount : ℚ
  remainingAmount : ℚ
  totalPaid : ℚ
  deriving DecidableEq, Repr

/-- A `Package` row (models/Package.js): the fields the core logic reads. -/
structure Package where
  price : ℚ
  depositPercentage : ℚ
  maxBookingsPerDay : ℕ
  isActive : Bool
  deriving DecidableEq, Repr

/-- A `Booking` row (models/Booking.js): the fields the core logic reads
and writes. -/
structure Booking where
  userId : ℕ
  packageId : ℕ
  bookingDate : ℕ
  pricing : Pricing
  paymentStatus : BookingPaymentStatus
  bookingStatus : BookingStatus
  stripePaymentIntentId : Option String
  stripeDepositIntentId : Option String
  cancellationReason : Option String
  cancelledAt : Option ℕ
  confirmedAt : Option ℕ
  completedAt : Option ℕ
  deriving DecidableEq, Repr

/-- A `Payment` row (models/Payment.js side of the schema used by
payment.controller.js). -/
structure Payment where
  amount : ℚ
  paymentType : PaymentType
  status : PaymentRowStatus
  stripePaymentIntentId : String
  stripeChargeId : Option String
  stripeRefundId : Option String
  refundedAmount : ℚ
  refundedAt : Option ℕ
  failureReason : Option String
  deriving DecidableEq, Repr

/-- `Package.prototype.getDepositAmount` (models/Package.js):
`(parseFloat(this.price) * this.depositPercentage) / 100`. -/
def Package.getDepositAmount (pkg : Package) : ℚ :=
  pkg.price * pkg.depositPercentage / 100

/-- `Package.prototype.getRemainingAmount` (models/Package.js):
`parseFloat(this.price) - this.getDepositAmount()`. -/
def Package.getRemainingAmount (pkg : Package) : ℚ :=
  pkg.price - pkg.getDepositAmount

/-- The pricing snapshot computed inside `createBooking`
(booking.controller.js lines 49–66):
`depositAmount = (pkg.price * pkg.depositPercentage) / 100`,
`remainingAmount = pkg.price - depositAmount`, `totalPaid: 0`. -/
def createBookingPricing (pkg : Package) : Pricing :=
  let depositAmount := pkg.price * pkg.depositPercentage / 100
  { packagePrice := pkg.price
    depositAmount := depositAmount
    remainingAmount := pkg.price - depositAmount
    totalPaid := 0 }

/-- Error outcomes returned through `next(new AppError(message, code))`.
Constructor names follow the spec's error taxonomy; each corresponds to a
specific message/code in the controllers (recorded in `Err.httpStatus`). -/
inductive Err
  | PackageNotFound
  | PackageUnavailable
  | CapacityExceeded
  | BookingNotFound
  | Forbidden
  | BookingNotCancellable
  | InvalidPaymentState
  | PaymentNotFound
  | OnlySucceededRefundable
  | DeliveryAlreadyExists
  | EmptyDelivery
  deriving DecidableEq, Repr

/-- HTTP status code attached to each `AppError` in the controllers. -/
def Err.httpStatus : Err → ℕ
  | .PackageNotFound => 404
  | .PackageUnavailable => 400
  | .CapacityExceeded => 400
  | .BookingNotFound => 404
  | .Forbidden => 403
  | .BookingNotCancellable => 400
  | .InvalidPaymentState => 400
  | .PaymentNotFound => 404
  | .OnlySucceededRefundable => 400
  | .DeliveryAlreadyExists => 400
  | .EmptyDelivery => 400

/-- `createBooking` (booking.controller.js lines 17–84). `existingCount` is
the result of the `Booking.count` query over non-Cancelled bookings for the
same `(packageId, bookingDate)`. -/
def createBooking (pkg : Option Package) (existingCount : ℕ) (userId : ℕ)
    (packageId : ℕ) (bookingDate : ℕ) : Except Err Booking :=
  match pkg with
  | none => .error .PackageNotFound
  | some pkg =>
    if pkg.isActive = false then .error .PackageUnavailable
    else if pkg.maxBookingsPerDay ≤ existingCount then .error .CapacityExceeded
    else .ok
      { userId := userId
        packageId := packageId
        bookingDate := bookingDate
        pricing := createBookingPricing pkg
        paymentStatus := .Pending
        bookingStatus := .Pending
        stripePaymentIntentId := none
        stripeDepositIntentId := none
        cancellationReason := none
        cancelledAt := none
        confirmedAt := none
        completedAt := none }

/-- Modelled from the spec (§4.2): the deposit amount the spec prescribes,
`round(packagePrice * depositPercentage / 100)` rounded half-up to the
currency minor unit (cents). Written from the spec's words, to be compared
with the code's `createBookingPricing`. -/
def specDepositAmount (price depositPercentage : ℚ) : ℚ :=
  (⌊price * depositPercentage / 100 * 100 + 1/2⌋ : ℤ) / 100

/-! ## Webhook reconciler (payment.controller.js) -/

/-- The `event.data.object` payloads of the three handled Stripe event
types, plus the default branch. `now` abstracts `new Date()` at the moment
the event is processed; `amount_refunded` is in cents, as Stripe sends it. -/
inductive StripeEvent
  | paymentIntentSucceeded (id : String) (latest_charge : String) (now : ℕ)
  | paymentIntentPaymentFailed (id : String) (errMsg : Option String)
  | chargeRefunded (id : String) (amount_refunded : ℚ) (now : ℕ)
  | other (eventType : String)
  deriving DecidableEq, Repr

/-- The store state a webhook event can touch: one booking together with its
`Payment` rows (all events the claims range over target a single booking). -/
structure WebhookState where
  booking : Booking
  payments : List Payment
  deriving DecidableEq, Repr

/-- `payment.save()` after a lookup keyed by the unique
`stripePaymentIntentId`: replace the row with that intent id. -/
def savePaymentByIntent (ps : List Payment) (intentId : String)
    (p : Payment) : List Payment :=
  ps.map fun q => if q.stripePaymentIntentId = intentId then p else q

/-- `payment.save()` after a lookup keyed by `stripeChargeId`. -/
def savePaymentByCharge (ps : List Payment) (chargeId : String)
    (p : Payment) : List Payment :=
  ps.map fun q => if q.stripeChargeId = some chargeId then p else q

/-- `handlePaymentSuccess` (payment.controller.js lines 197–234): look the
Payment up by intent id; if none, log and return; otherwise mark it
Succeeded, record the charge id, add its amount to `pricing.totalPaid`, and
for a Deposit set `paymentStatus = DepositPaid`, `bookingStatus = Confirmed`,
`confirmedAt`; for Remaining/Full set `paymentStatus = FullyPaid`. The
receipt e-mail is fire-and-forget and not part of the state. -/
def handlePaymentSuccess (id latest_charge : String) (now : ℕ)
    (s : WebhookState) : WebhookState :=
  match s.payments.find? (fun p => p.stripePaymentIntentId = id) with
  | none => s
  | some payment =>
    let payment' := { payment with
      status := .Succeeded
      stripeChargeId := some latest_charge }
    let booking := s.booking
    let booking := { booking with pricing :=
      { booking.pricing with totalPaid := booking.pricing.totalPaid + payment.amount } }
    let booking :=
      if payment.paymentType = .Deposit then
        { booking with
          paymentStatus := .DepositPaid
          bookingStatus := .Confirmed
          confirmedAt := some now }
      else if payment.paymentType = .Remaining ∨ payment.paymentType = .Full then
        { booking with paymentStatus := .FullyPaid }
      else booking
    { booking := booking
      payments := savePaymentByIntent s.payments id payment' }

/-- `handlePaymentFailure` (payment.controller.js lines 239–252): mark the
matching Payment Failed with a failure reason; the booking is untouched. -/
def handlePaymentFailure (id : String) (errMsg : Option String)
    (s : WebhookState) : WebhookState :=
  match s.payments.find? (fun p => p.stripePaymentIntentId = id) with
  | none => s
  | some payment =>
    let payment' := { payment with
      status := .Failed
      failureReason := some (errMsg.getD "Payment failed") }
    { booking := s.booking
      payments := savePaymentByIntent s.payments payment.stripePaymentIntentId payment' }

/-- `handleRefund` (payment.controller.js lines 257–277): look the Payment
up by charge id; mark it Refunded with `refundedAmount = amount_refunded / 100`,
subtract that from `pricing.totalPaid`, and set the booking's
`paymentStatus = Refunded` unconditionally. -/
def handleRefund (id : String) (amount_refunded : ℚ) (now : ℕ)
    (s : WebhookState) : WebhookState :=
  match s.payments.find? (fun p => p.stripeChargeId = some id) with
  | none => s
  | some payment =>
    let refundedAmount := amount_refunded / 100
    let payment' := { payment with
      status := .Refunded
      refundedAmount := refundedAmount
      refundedAt := some now }
    let booking := { s.booking with
      pricing := { s.booking.pricing with
        totalPaid := s.booking.pricing.totalPaid - refundedAmount }
      paymentStatus := .Refunded }
    { booking := booking
      payments := savePaymentByCharge s.payments id payment' }

/-- The webhook response body `{ received: true }` with its HTTP status. -/
structure WebhookResponse where
  status : ℕ
  received : Bool
  deriving DecidableEq, Repr

/-- `handleStripeWebhook` (payment.controller.js lines 163–192) after
signature verification has succeeded: dispatch on the event type and answer
200 `{ received: true }` whatever the event did. -/
def handleStripeWebhook (ev : StripeEvent) (s : WebhookState) :
    WebhookState × WebhookResponse :=
  let s' :=
    match ev with
    | .paymentIntentSucceeded id latest_charge now =>
        handlePaymentSuccess id latest_charge now s
    | .paymentIntentPaymentFailed id errMsg =>
        handlePaymentFailure id errMsg s
    | .chargeRefunded id amount_refunded now =>
        handleRefund id amount_refunded now s
    | .other _ => s
  (s', { status := 200, received := true })

/-- Applying a sequence of webhook events in order. -/
def applyEvents (evs : List StripeEvent) (s : WebhookState) : WebhookState :=
  evs.foldl (fun s ev => (handleStripeWebhook ev s).1) s

/-- A concrete booking used in the refutations: package price 1000, deposit
300, remaining 700, nothing paid yet. -/
def demoBooking : Booking :=
  { userId := 1
    packageId := 1
    bookingDate := 100
    pricing :=
      { packagePrice := 1000, depositAmount := 300, remainingAmount := 700
        totalPaid := 0 }
    paymentStatus := .Pending
    bookingStatus := .Pending
    stripePaymentIntentId := none
    stripeDepositIntentId := some "pi_dep"
    cancellationReason := none
    cancelledAt := none
    confirmedAt := none
    completedAt := none }

/-- The pending deposit Payment row for `demoBooking` ($300, intent
"pi_dep"). -/
def demoDepositPayment : Payment :=
  { amount := 300
    paymentType := .Deposit
    status := .Pending
    stripePaymentIntentId := "pi_dep"
    stripeChargeId := none
    stripeRefundId := none
    refundedAmount := 0
    refundedAt := none
    failureReason := none }

/-- The pending remaining Payment row for `demoBooking` ($700, intent
"pi_rem"). -/
def demoRemainingPayment : Payment :=
  { amount := 700
    paymentType := .Remaining
    status := .Pending
    stripePaymentIntentId := "pi_rem"
    stripeChargeId := none
    stripeRefundId := none
    refundedAmount := 0
    refundedAt := none
    failureReason := none }

/-- The initial state for the refutations: `demoBooking` with its deposit
and remaining Payment rows, both still Pending. -/
def demoState : WebhookState :=
  { booking := demoBooking
    payments := [demoDepositPayment, demoRemainingPayment] }

/-! ## Booking cancellation and admin status update (booking.controller.js,
models/Booking.js) -/

/-- `Booking.prototype.isPast` (models/Booking.js):
`this.bookingDate < new Date()`. -/
def Booking.isPast (b : Booking) (now : ℕ) : Bool :=
  b.bookingDate < now

/-- `Booking.prototype.canBeCancelled` (models/Booking.js lines 119–125):
status is neither Completed nor Cancelled and the date is not past. -/
def Booking.canBeCancelled (b : Booking) (now : ℕ) : Bool :=
  !(b.bookingStatus == .Completed) && !(b.bookingStatus == .Cancelled)
    && !(b.isPast now)

/-- The authenticated requester (`req.user`). -/
structure Requester where
  id : ℕ
  isAdmin : Bool
  deriving DecidableEq, Repr

/-- `cancelBooking` (booking.controller.js lines 279–317): 404 when the
booking is not found, 403 when the requester is neither admin nor owner,
400 `BookingNotCancellable` when `canBeCancelled()` is false; otherwise set
`bookingStatus = Cancelled`, `cancelledAt`, and the reason (defaulting to
"Cancelled by user"). An `Err` result models returning through
`next(new AppError(...))` before any mutation. -/
def cancelBooking (b? : Option Booking) (req : Requester)
    (reason : Option String) (now : ℕ) : Except Err Booking :=
  match b? with
  | none => .error .BookingNotFound
  | some booking =>
    if !req.isAdmin && booking.userId != req.id then .error .Forbidden
    else if !(booking.canBeCancelled now) then .error .BookingNotCancellable
    else .ok { booking with
      bookingStatus := .Cancelled
      cancelledAt := some now
      cancellationReason := some (reason.getD "Cancelled by user") }

/-- `updateBookingStatus` (booking.controller.js lines 214–272, admin):
404 when not found; otherwise `booking.bookingStatus = status`
unconditionally — there is no check of the current status — then set the
timestamp matching the requested status (confirmation and cancellation
e-mails are fire-and-forget and not part of the state). -/
def updateBookingStatus (b? : Option Booking) (status : BookingStatus)
    (cancellationReason : Option String) (now : ℕ) : Except Err Booking :=
  match b? with
  | none => .error .BookingNotFound
  | some booking =>
    let booking := { booking with bookingStatus := status }
    let booking :=
      if status == .Confirmed then { booking with confirmedAt := some now }
      else booking
    let booking :=
      if status == .Cancelled then
        { booking with cancelledAt := some now
                       cancellationReason := cancellationReason }
      else booking
    let booking :=
      if status == .Completed then { booking with completedAt := some now }
      else booking
    .ok booking

/-! ## Payment intent creation (payment.controller.js) -/

/-- `createDepositPayment` (payment.controller.js lines 12–68): 404 when
the booking is not found, 403 when the requester is not the booking's
owner, 400 ("Deposit has already been paid", i.e. `InvalidPaymentState`)
when `paymentStatus ≠ Pending`; otherwise create a Pending Deposit Payment
row for `pricing.depositAmount` carrying the new intent id, and store the
intent id on the booking. `intentId` is the id minted by the external
processor for this call. -/
def createDepositPayment (b? : Option Booking) (req : Requester)
    (intentId : String) : Except Err (Booking × Payment) :=
  match b? with
  | none => .error .BookingNotFound
  | some booking =>
    if booking.userId != req.id then .error .Forbidden
    else if !(booking.paymentStatus == .Pending) then .error .InvalidPaymentState
    else
      let payment : Payment :=
        { amount := booking.pricing.depositAmount
          paymentType := .Deposit
          status := .Pending
          stripePaymentIntentId := intentId
          stripeChargeId := none
          stripeRefundId := none
          refundedAmount := 0
          refundedAt := none
          failureReason := none }
      .ok ({ booking with stripeDepositIntentId := some intentId }, payment)

/-- `createRemainingPayment` (payment.controller.js lines 75–134): as the
deposit path but requiring `paymentStatus = DepositPaid` ("Deposit must be
paid before paying the remaining amount", i.e. `InvalidPaymentState`),
creating a Pending Remaining Payment row for `pricing.remainingAmount`. -/
def createRemainingPayment (b? : Option Booking) (req : Requester)
    (intentId : String) : Except Err (Booking × Payment) :=
  match b? with
  | none => .error .BookingNotFound
  | some booking =>
    if booking.userId != req.id then .error .Forbidden
    else if !(booking.paymentStatus == .DepositPaid) then .error .InvalidPaymentState
    else
      let payment : Payment :=
        { amount := booking.pricing.remainingAmount
          paymentType := .Remaining
          status := .Pending
          stripePaymentIntentId := intentId
          stripeChargeId := none
          stripeRefundId := none
          refundedAmount := 0
          refundedAt := none
          failureReason := none }
      .ok ({ booking with stripePaymentIntentId := some intentId }, payment)

/-- `createRefund` (payment.controller.js lines 284–325, admin): 404 when
the Payment row is not found, 400 ("Only successful payments can be
refunded") when its status is not Succeeded; otherwise mark it Refunded
with `refundedAmount = amount || payment.amount` (a missing or zero request
amount falls back to the full payment amount, as `||` does on falsy
values), subtract that from the booking's `totalPaid`, and set the
booking's `paymentStatus = Refunded` only when `totalPaid === 0` after the
subtraction. `b` is the populated `payment.booking` row. -/
def createRefund (p? : Option Payment) (b : Booking) (amount : Option ℚ)
    (refundId : String) (now : ℕ) : Except Err (Payment × Booking) :=
  match p? with
  | none => .error .PaymentNotFound
  | some payment =>
    if !(payment.status == .Succeeded) then .error .OnlySucceededRefundable
    else
      let refundedAmount :=
        match amount with
        | some a => if a = 0 then payment.amount else a
        | none => payment.amount
      let payment' := { payment with
        status := .Refunded
        refundedAmount := refundedAmount
        refundedAt := some now
        stripeRefundId := some refundId }
      let booking := { b with pricing :=
        { b.pricing with totalPaid := b.pricing.totalPaid - refundedAmount } }
      let booking :=
        if booking.pricing.totalPaid = 0 then
          { booking with paymentStatus := .Refunded }
        else booking
      .ok (payment', booking)

/-! ## Delivery issuance (delivery.controller.js) -/

/-- A delivered photo as stored on the Delivery row (url, asset-store id,
position). -/
structure Photo where
  url : String
  publicId : String
  order : ℕ
  deriving DecidableEq, Repr

/-- The request-body options of `createDelivery`. -/
structure DeliveryOptions where
  albumName : String
  expiresAt : Option ℕ
  password : Option String
  isPublic : Bool
  allowDownload : Bool
  watermarkEnabled : Bool
  deriving DecidableEq, Repr

/-- A `Delivery` row: the fields `createDelivery` writes. -/
structure Delivery where
  bookingId : ℕ
  albumName : String
  photos : List Photo
  expiresAt : Option ℕ
  password : Option String
  isPublic : Bool
  allowDownload : Bool
  watermarkEnabled : Bool
  notifiedAt : Option ℕ
  deriving DecidableEq, Repr

/-- `createDelivery` (delivery.controller.js lines 14–89): 404 when the
booking is not found; 400 `DeliveryAlreadyExists` when a Delivery row
already exists for this booking; 400 `EmptyDelivery` when no photo was
uploaded; otherwise persist the Delivery and, if the booking is not already
Completed, set `bookingStatus = Completed` and `completedAt`. `existing` is
the result of the `Delivery.findOne({ where: { bookingId } })` lookup and
`photos` the uploaded files (the asset store maps request files 1:1). -/
def createDelivery (b? : Option Booking) (existing : Option Delivery)
    (bookingId : ℕ) (photos : List Photo) (opts : DeliveryOptions)
    (now : ℕ) : Except Err (Delivery × Booking) :=
  match b? with
  | none => .error .BookingNotFound
  | some booking =>
    match existing with
    | some _ => .error .DeliveryAlreadyExists
    | none =>
      if photos.isEmpty then .error .EmptyDelivery
      else
        let delivery : Delivery :=
          { bookingId := bookingId
            albumName := opts.albumName
            photos := photos
            expiresAt := opts.expiresAt
            password := opts.password
            isPublic := opts.isPublic
            allowDownload := opts.allowDownload
            watermarkEnabled := opts.watermarkEnabled
            notifiedAt := some now }
        let booking :=
          if booking.bookingStatus != .Completed then
            { booking with bookingStatus := .Completed, completedAt := some now }
          else booking
        .ok (delivery, booking)

/-- The predicate of C8: the event's external intent/charge id matches no
Payment row of the state (an `other` event carries no id and touches
nothing). -/
def eventMatchesNoPayment (ev : StripeEvent) (s : WebhookState) : Prop :=
  match ev with
  | .paymentIntentSucceeded id _ _ =>
      ∀ p ∈ s.payments, p.stripePaymentIntentId ≠ id
  | .paymentIntentPaymentFailed id _ =>
      ∀ p ∈ s.payments, p.stripePaymentIntentId ≠ id
  | .chargeRefunded id _ _ =>
      ∀ p ∈ s.payments, p.stripeChargeId ≠ some id
  | .other _ => True

/-- The booking of `demoState` once completed: used to refute C6. -/
def completedBooking : Booking :=
  { demoBooking with bookingStatus := .Completed, completedAt := some 3 }

/-- A Succeeded $300 deposit Payment row: used in the C10 witness. -/
def succeededDepositPayment : Payment :=
  { demoDepositPayment with
      status := .Succeeded, stripeChargeId := some "ch_dep" }

/-- `demoBooking` after its deposit succeeded: DepositPaid, Confirmed,
`totalPaid = 300`: used in the C10 witness. -/
def depositPaidBooking : Booking :=
  { demoBooking with
      paymentStatus := .DepositPaid
      bookingStatus := .Confirmed
      confirmedAt := some 3
      pricing := { demoBooking.pricing with totalPaid := 300 } }

/-! ## Theorems -/
/-- C3: for every package with positive price and depositPercentage in
[0,100], the pricing snapshot computed at booking creation satisfies
`depositAmount + remainingAmount = packagePrice` exactly. -/
theorem c3_deposit_plus_remaining_eq_price (pkg : Package)
    (hp : 0 < pkg.price) (h0 : 0 ≤ pkg.depositPercentage)
    (h100 : pkg.depositPercentage ≤ 100) :
    (createBookingPricing pkg).depositAmount
      + (createBookingPricing pkg).remainingAmount
      = (createBookingPricing pkg).packagePrice := by
  simp [createBookingPricing]

theorem c3_deposit_plus_remaining_eq_price_witness :
    (0 : ℚ) < 1000 ∧ (0 : ℚ) ≤ 30 ∧ (30 : ℚ) ≤ 100 ∧
    (createBookingPricing ⟨1000, 30, 1, true⟩).depositAmount
      + (createBookingPricing ⟨1000, 30, 1, true⟩).remainingAmount
      = (createBookingPricing ⟨1000, 30, 1, true⟩).packagePrice :=
  ⟨by norm_num, by norm_num, by norm_num,
    c3_deposit_plus_remaining_eq_price ⟨1000, 30, 1, true⟩
      (by norm_num) (by norm_num) (by norm_num)⟩

/-- C4 counterexample: at price 100.01 and depositPercentage 33, the deposit
amount the code stores (33.0033) is not the spec's half-up-rounded value
(33.00): the code performs no rounding. -/
theorem c4_counterexample :
    (createBookingPricing ⟨10001/100, 33, 1, true⟩).depositAmount
      ≠ specDepositAmount (10001/100) 33 := by
  norm_num [createBookingPricing, specDepositAmount]

/-- C4 amended: the deposit amount computed at booking creation is the exact
unrounded value `packagePrice * depositPercentage / 100`, and
`remainingAmount = packagePrice - depositAmount`; no rounding to the
currency minor unit is applied to the stored snapshot. -/
theorem c4_amended_pricing_unrounded (pkg : Package) :
    (createBookingPricing pkg).depositAmount
        = pkg.price * pkg.depositPercentage / 100
      ∧ (createBookingPricing pkg).remainingAmount
        = pkg.price - pkg.price * pkg.depositPercentage / 100 := by
  constructor <;> simp [createBookingPricing]


/-- C1: `handlePaymentSuccess` performs no idempotency check — it never
inspects the Payment's current status — so re-delivering the same
`payment_intent.succeeded` event adds the amount to `totalPaid` a second
time: applying the event twice does not equal applying it once (after one
application `totalPaid = 300`, after two it is 600). -/
theorem c1_success_not_idempotent :
    handlePaymentSuccess "pi_dep" "ch_dep" 5
        (handlePaymentSuccess "pi_dep" "ch_dep" 5 demoState)
      ≠ handlePaymentSuccess "pi_dep" "ch_dep" 5 demoState := by
  intro h
  have h2 := congrArg (fun s => s.booking.pricing.totalPaid) h
  simp +decide [handlePaymentSuccess, demoState, demoBooking, demoDepositPayment,
    demoRemainingPayment, savePaymentByIntent] at h2

/-- C2: the sequence deposit-success, remaining-success, remaining-success
(the remaining event redelivered once) drives `totalPaid` to 1700 while
`packagePrice` is 1000: the invariant `totalPaid ≤ packagePrice` fails
under at-least-once delivery because `handlePaymentSuccess` never skips an
already-Succeeded payment. -/
theorem c2_totalPaid_exceeds_packagePrice :
    (applyEvents
      [ .paymentIntentSucceeded "pi_dep" "ch_dep" 5
      , .paymentIntentSucceeded "pi_rem" "ch_rem" 6
      , .paymentIntentSucceeded "pi_rem" "ch_rem" 7 ]
      demoState).booking.pricing.packagePrice
    < (applyEvents
      [ .paymentIntentSucceeded "pi_dep" "ch_dep" 5
      , .paymentIntentSucceeded "pi_rem" "ch_rem" 6
      , .paymentIntentSucceeded "pi_rem" "ch_rem" 7 ]
      demoState).booking.pricing.totalPaid := by
  simp +decide [applyEvents, handleStripeWebhook, handlePaymentSuccess, demoState,
    demoBooking, demoDepositPayment, demoRemainingPayment, savePaymentByIntent]
  norm_num

/-- C5: `canBeCancelled` is true iff the booking is neither Completed nor
Cancelled and its date is not past; and for an authorized requester (owner
or admin) cancellation of a booking violating the rule fails with
`BookingNotCancellable` (HTTP 400), leaving the booking unchanged (the
error is returned before any write). -/
theorem c5_cancellability_rule (b : Booking) (now : ℕ) (req : Requester)
    (reason : Option String) (hauth : req.isAdmin = true ∨ b.userId = req.id) :
    (b.canBeCancelled now = true ↔
      (b.bookingStatus ≠ .Completed ∧ b.bookingStatus ≠ .Cancelled ∧
        ¬ b.bookingDate < now))
    ∧ (b.canBeCancelled now = false →
        cancelBooking (some b) req reason now = .error .BookingNotCancellable
          ∧ Err.BookingNotCancellable.httpStatus = 400) := by
  have hguard : (!req.isAdmin && b.userId != req.id) = false := by
    rcases hauth with h | h
    · simp [h]
    · simp [h]
  constructor
  · simp [Booking.canBeCancelled, Booking.isPast, and_assoc]
  · intro hc
    refine ⟨?_, rfl⟩
    simp [cancelBooking, hguard, hc]

theorem c5_cancellability_rule_witness :
    cancelBooking (some completedBooking) ⟨9, true⟩ none 5
        = .error .BookingNotCancellable
      ∧ Err.BookingNotCancellable.httpStatus = 400 :=
  (c5_cancellability_rule completedBooking 5 ⟨9, true⟩ none (Or.inl rfl)).2
    (by decide)

/-- C6 counterexample: a Completed booking is not terminal — the admin
status update moves it straight back to Pending. -/
theorem c6_counterexample :
    completedBooking.bookingStatus = .Completed ∧
    (updateBookingStatus (some completedBooking) .Pending none 5).map
        Booking.bookingStatus = .ok .Pending :=
  ⟨rfl, rfl⟩

/-- C6 amended: Completed and Cancelled are not enforced as terminal
states. The admin status update sets `bookingStatus` to the requested value
unconditionally; webhook deposit-success sets a matching booking to
Confirmed whatever its current status; delivery creation moves even a
Cancelled booking to Completed. Only client/owner cancellation respects
terminality: on a Completed or Cancelled booking it fails (with `Forbidden`
or `BookingNotCancellable`) and changes nothing. -/
theorem c6_amended_terminal_not_enforced :
    (∀ b status r now,
      (updateBookingStatus (some b) status r now).map Booking.bookingStatus
        = .ok status)
    ∧ (∀ b req reason now,
        b.bookingStatus = .Completed ∨ b.bookingStatus = .Cancelled →
        cancelBooking (some b) req reason now = .error .Forbidden ∨
        cancelBooking (some b) req reason now = .error .BookingNotCancellable)
    ∧ (∀ s id ch now p,
        s.payments.find? (fun q => q.stripePaymentIntentId = id) = some p →
        p.paymentType = .Deposit →
        (handlePaymentSuccess id ch now s).booking.bookingStatus = .Confirmed)
    ∧ (∀ b existing bid photos opts now d b',
        b.bookingStatus = .Cancelled →
        createDelivery (some b) existing bid photos opts now = .ok (d, b') →
        b'.bookingStatus = .Completed) := by
  refine ⟨?_, ?_, ?_, ?_⟩
  · intro b status r now
    simp only [updateBookingStatus]
    split <;> split <;> split <;> simp [Except.map]
  · intro b req reason now hterm
    by_cases hg : (!req.isAdmin && b.userId != req.id) = true
    · left
      simp [cancelBooking, hg]
    · right
      have hc : b.canBeCancelled now = false := by
        rcases hterm with h | h <;>
          simp [Booking.canBeCancelled, h]
      have hg' : (!req.isAdmin && b.userId != req.id) = false := by
        simpa using hg
      simp [cancelBooking, hg', hc]
  · intro s id ch now p hfind hdep
    simp [handlePaymentSuccess, hfind, hdep]
  · intro b existing bid photos opts now d b' hcanc hok
    match existing with
    | some _ => simp [createDelivery] at hok
    | none =>
      by_cases hph : photos.isEmpty
      · simp [createDelivery, hph] at hok
      · simp [createDelivery, hph] at hok
        rcases hok with ⟨-, hb'⟩
        rw [← hb']
        simp [hcanc]

theorem c6_amended_terminal_not_enforced_witness :
    cancelBooking (some completedBooking) ⟨1, false⟩ none 5
        = .error .Forbidden ∨
    cancelBooking (some completedBooking) ⟨1, false⟩ none 5
        = .error .BookingNotCancellable :=
  c6_amended_terminal_not_enforced.2.1 completedBooking ⟨1, false⟩ none 5
    (Or.inl rfl)

/-- C7: for an owner-authorized request on an existing booking, creating a
deposit intent succeeds only when `paymentStatus = Pending` and a remaining
intent only when `paymentStatus = DepositPaid`: in every other payment
state the call fails with `InvalidPaymentState` (HTTP 400) and returns no
Payment row (the error is returned before the row is created). -/
theorem c7_intent_preconditions (b : Booking) (req : Requester)
    (iid : String) (hauth : b.userId = req.id) :
    (b.paymentStatus ≠ .Pending →
      createDepositPayment (some b) req iid = .error .InvalidPaymentState)
    ∧ (∀ r, createDepositPayment (some b) req iid = .ok r →
        b.paymentStatus = .Pending)
    ∧ (b.paymentStatus ≠ .DepositPaid →
      createRemainingPayment (some b) req iid = .error .InvalidPaymentState)
    ∧ (∀ r, createRemainingPayment (some b) req iid = .ok r →
        b.paymentStatus = .DepositPaid)
    ∧ Err.InvalidPaymentState.httpStatus = 400 := by
  refine ⟨?_, ?_, ?_, ?_, rfl⟩
  · intro hne
    simp [createDepositPayment, hauth, hne]
  · intro r hok
    by_contra hne
    simp [createDepositPayment, hauth, hne] at hok
  · intro hne
    simp [createRemainingPayment, hauth, hne]
  · intro r hok
    by_contra hne
    simp [createRemainingPayment, hauth, hne] at hok

theorem c7_intent_preconditions_witness :
    createDepositPayment (some depositPaidBooking) ⟨1, false⟩ "pi_new"
      = .error .InvalidPaymentState :=
  (c7_intent_preconditions depositPaidBooking ⟨1, false⟩ "pi_new" rfl).1
    (by decide)

/-- C8: a verified webhook event whose intent/charge id matches no Payment
row returns 200 `{ received: true }` and leaves the whole state (every
Payment and the Booking) unchanged. -/
theorem c8_unknown_event_is_noop (ev : StripeEvent) (s : WebhookState)
    (h : eventMatchesNoPayment ev s) :
    handleStripeWebhook ev s = (s, { status := 200, received := true }) := by
  cases ev with
  | paymentIntentSucceeded id ch now =>
    have hfind : s.payments.find? (fun p => p.stripePaymentIntentId = id)
        = none := by
      rw [List.find?_eq_none]
      intro p hp
      simpa using h p hp
    simp [handleStripeWebhook, handlePaymentSuccess, hfind]
  | paymentIntentPaymentFailed id msg =>
    have hfind : s.payments.find? (fun p => p.stripePaymentIntentId = id)
        = none := by
      rw [List.find?_eq_none]
      intro p hp
      simpa using h p hp
    simp [handleStripeWebhook, handlePaymentFailure, hfind]
  | chargeRefunded id amt now =>
    have hfind : s.payments.find? (fun p => p.stripeChargeId = some id)
        = none := by
      rw [List.find?_eq_none]
      intro p hp
      simpa using h p hp
    simp [handleStripeWebhook, handleRefund, hfind]
  | other t =>
    simp [handleStripeWebhook]

theorem c8_unknown_event_is_noop_witness :
    handleStripeWebhook (.paymentIntentSucceeded "pi_unknown" "ch" 0) demoState
      = (demoState, { status := 200, received := true }) :=
  c8_unknown_event_is_noop _ _ (by
    simp +decide [eventMatchesNoPayment, demoState, demoDepositPayment,
      demoRemainingPayment])

/-- C9: `createDelivery` fails with `DeliveryAlreadyExists` when a Delivery
row exists for the booking, with `EmptyDelivery` when no photo is supplied;
on success it persists the Delivery (with the supplied photos, keyed by the
booking) and, exactly when the booking is not already Completed,
transitions it to Completed and sets `completedAt`. -/
theorem c9_createDelivery_spec (b : Booking) (existing : Option Delivery)
    (bid : ℕ) (photos : List Photo) (opts : DeliveryOptions) (now : ℕ) :
    (∀ d0, existing = some d0 →
      createDelivery (some b) existing bid photos opts now
        = .error .DeliveryAlreadyExists)
    ∧ (existing = none → photos = [] →
      createDelivery (some b) existing bid photos opts now
        = .error .EmptyDelivery)
    ∧ (existing = none → photos ≠ [] →
      ∃ d b', createDelivery (some b) existing bid photos opts now = .ok (d, b')
        ∧ d.photos = photos ∧ d.bookingId = bid
        ∧ (b.bookingStatus ≠ .Completed →
            b'.bookingStatus = .Completed ∧ b'.completedAt = some now)
        ∧ (b.bookingStatus = .Completed → b' = b)) := by
  refine ⟨?_, ?_, ?_⟩
  · intro d0 hex
    simp [createDelivery, hex]
  · intro hex hph
    simp [createDelivery, hex, hph]
  · intro hex hph
    subst hex
    have hph' : photos.isEmpty = false := by
      simpa [List.isEmpty_iff] using hph
    have hok : createDelivery (some b) none bid photos opts now
        = .ok
          ({ bookingId := bid
             albumName := opts.albumName
             photos := photos
             expiresAt := opts.expiresAt
             password := opts.password
             isPublic := opts.isPublic
             allowDownload := opts.allowDownload
             watermarkEnabled := opts.watermarkEnabled
             notifiedAt := some now },
           if b.bookingStatus != .Completed then
             { b with bookingStatus := .Completed, completedAt := some now }
           else b) := by
      simp [createDelivery, hph']
    refine ⟨_, _, hok, rfl, rfl, ?_, ?_⟩
    · intro hnc
      have hb : (b.bookingStatus != .Completed) = true := by simpa using hnc
      simp [hb]
    · intro hc
      have hb : (b.bookingStatus != .Completed) = false := by simpa using hc
      simp [hb]

theorem c9_createDelivery_spec_witness :
    ∃ d b', createDelivery (some demoBooking) none 1 [⟨"u", "pid", 0⟩]
        ⟨"Album", none, none, true, true, false⟩ 7 = .ok (d, b')
      ∧ d.photos = [⟨"u", "pid", 0⟩] ∧ d.bookingId = 1
      ∧ (demoBooking.bookingStatus ≠ .Completed →
          b'.bookingStatus = .Completed ∧ b'.completedAt = some 7)
      ∧ (demoBooking.bookingStatus = .Completed → b' = demoBooking) :=
  (c9_createDelivery_spec demoBooking none 1 [⟨"u", "pid", 0⟩]
      ⟨"Album", none, none, true, true, false⟩ 7).2.2 rfl (by simp)

/-- C10: an admin refund of a Succeeded payment subtracts the refunded
amount (`amount || payment.amount`) from the booking's `totalPaid` but sets
the booking's `paymentStatus = Refunded` only when `totalPaid` is exactly 0
after the subtraction — a partial refund leaves `paymentStatus` unchanged —
whereas the webhook refund path sets `paymentStatus = Refunded`
unconditionally. -/
theorem c10_refund_paths (p : Payment) (b : Booking) (amount : Option ℚ)
    (rid : String) (now : ℕ) (hs : p.status = .Succeeded) :
    ((createRefund (some p) b amount rid now).map
        (fun r => r.2.pricing.totalPaid)
      = .ok (b.pricing.totalPaid
          - (match amount with
             | some a => if a = 0 then p.amount else a
             | none => p.amount)))
    ∧ (b.pricing.totalPaid
          - (match amount with
             | some a => if a = 0 then p.amount else a
             | none => p.amount) = 0 →
        (createRefund (some p) b amount rid now).map
            (fun r => r.2.paymentStatus)
          = .ok .Refunded)
    ∧ (b.pricing.totalPaid
          - (match amount with
             | some a => if a = 0 then p.amount else a
             | none => p.amount) ≠ 0 →
        (createRefund (some p) b amount rid now).map
            (fun r => r.2.paymentStatus)
          = .ok b.paymentStatus)
    ∧ (∀ s id amt now' q,
        s.payments.find? (fun r => r.stripeChargeId = some id) = some q →
        (handleRefund id amt now' s).booking.paymentStatus = .Refunded) := by
  have hs' : (p.status == PaymentRowStatus.Succeeded) = true := by
    simp [hs]
  refine ⟨?_, ?_, ?_, ?_⟩
  · simp only [createRefund, hs', Bool.not_true, Bool.false_eq_true,
      if_false, Except.map]
    split <;> rfl
  · intro h0
    simp [createRefund, hs', Except.map, h0]
  · intro h0
    simp [createRefund, hs', Except.map, h0]
  · intro s id amt now' q hfind
    simp [handleRefund, hfind]

theorem c10_refund_paths_witness :
    (createRefund (some succeededDepositPayment) depositPaidBooking
        (some 100) "re_1" 9).map (fun r => r.2.paymentStatus)
      = .ok depositPaidBooking.paymentStatus :=
  (c10_refund_paths succeededDepositPayment depositPaidBooking (some 100)
      "re_1" 9 rfl).2.2.1
    (by norm_num [depositPaidBooking, demoBooking, demoDepositPayment,
      succeededDepositPayment])
